import Mathlib

/-
  Verification of the event/barrier synchronization core of the Realm runtime
  (src/runtime/realm/event_impl.cc) against its natural-language specification.

  The embedding below translates the relevant code paths into pure Lean
  functions.  Mutable C++ state becomes explicit state records; std::map
  fields become association lists kept in ascending key order (std::map
  iterates in ascending key order, and begin() is the least key); out-bound
  messages and waiter callbacks become explicit components of each
  operation's result.
-/

namespace Realm

/- ------------------------------------------------------------------ -/
/- Association-list helpers modelling std::map<Nat, α>.               -/
/- ------------------------------------------------------------------ -/

/-- Lookup of a key in an association list (std::map::find). -/
def lookupKey {α : Type} : List (Nat × α) → Nat → Option α
  | [], _ => none
  | (k, v) :: rest, key => if k = key then some v else lookupKey rest key

/-- Removal of a key from an association list (std::map::erase). -/
def eraseKey {α : Type} : List (Nat × α) → Nat → List (Nat × α)
  | [], _ => []
  | (k, v) :: rest, key => if k = key then rest else (k, v) :: eraseKey rest key

/-- Insert-or-assign keeping ascending key order (std::map::operator[]=). -/
def insertKey {α : Type} : List (Nat × α) → Nat → α → List (Nat × α)
  | [], key, v => [(key, v)]
  | (k, w) :: rest, key, v =>
    if key < k then (key, v) :: (k, w) :: rest
    else if key = k then (key, v) :: rest
    else (k, w) :: insertKey rest key v

/-- The map operation m[key].push_back(w): creates an empty vector when the
    key is absent, then appends, keeping ascending key order. -/
def appendAtKey : List (Nat × List Nat) → Nat → Nat → List (Nat × List Nat)
  | [], key, w => [(key, [w])]
  | (k, ws) :: rest, key, w =>
    if key < k then (key, [w]) :: (k, ws) :: rest
    else if key = k then (k, ws ++ [w]) :: rest
    else (k, ws) :: appendAtKey rest key w

/-- The map operation m[key] += d on an int-valued map: creates a
    zero-initialized entry when the key is absent, then adds. -/
def addAtKey : List (Nat × Int) → Nat → Int → List (Nat × Int)
  | [], key, d => [(key, d)]
  | (k, v) :: rest, key, d =>
    if key < k then (key, d) :: (k, v) :: rest
    else if key = k then (k, v + d) :: rest
    else (k, v) :: addAtKey rest key d

theorem lookupKey_insertKey_self {α : Type} (m : List (Nat × α)) (k : Nat) (v : α) :
    lookupKey (insertKey m k v) k = some v := by
  induction m with
  | nil => simp [insertKey, lookupKey]
  | cons hd tl ih =>
    obtain ⟨k0, v0⟩ := hd
    by_cases h1 : k < k0
    · simp [insertKey, h1, lookupKey]
    · by_cases h2 : k = k0
      · simp [insertKey, h1, h2, lookupKey]
      · have hgt : ¬ k0 = k := fun h => h2 h.symm
        simp [insertKey, h1, h2, lookupKey, hgt, ih]

theorem lookupKey_insertKey_ne {α : Type} (m : List (Nat × α)) (k g : Nat) (v : α)
    (hne : g ≠ k) : lookupKey (insertKey m k v) g = lookupKey m g := by
  have hkg : ¬ k = g := fun h => hne h.symm
  induction m with
  | nil => simp [insertKey, lookupKey, hkg]
  | cons hd tl ih =>
    obtain ⟨k0, v0⟩ := hd
    by_cases h1 : k < k0
    · simp [insertKey, h1, lookupKey, hkg]
    · by_cases h2 : k = k0
      · subst h2
        simp [insertKey, h1, lookupKey, hkg]
      · simp [insertKey, h1, h2, lookupKey, ih]

theorem lookupKey_eraseKey_ne {α : Type} (m : List (Nat × α)) (k g : Nat)
    (hne : g ≠ k) : lookupKey (eraseKey m k) g = lookupKey m g := by
  induction m with
  | nil => simp [eraseKey]
  | cons hd tl ih =>
    obtain ⟨k0, v0⟩ := hd
    by_cases h1 : k0 = k
    · subst h1
      have hng : ¬ k0 = g := fun h => hne h.symm
      simp [eraseKey, lookupKey, hng]
    · simp [eraseKey, h1, lookupKey, ih]

/- ------------------------------------------------------------------ -/
/- Events as observed through has_triggered_faultaware.               -/
/- ------------------------------------------------------------------ -/

/-- Observable status of an input event: either not yet triggered, or
    triggered carrying a poison bit. -/
inductive EventStatus : Type
  | untriggered : EventStatus
  | triggered : Bool → EventStatus
deriving DecidableEq

/-- Constant POISON_FIXME (event_impl.cc line 30): used in places that do
    not currently propagate poison but should. -/
def POISON_FIXME : Bool := false

/-- Event::has_triggered_faultaware (event_impl.cc lines 100-106) as a pure
    function of an environment assigning each event id its status.  Id 0 is
    Event::NO_EVENT and always reports triggered with the out-parameter left
    at its caller-initialized value false. -/
def has_triggered_faultaware (env : Nat → EventStatus) (e : Nat) : Bool × Bool :=
  if e = 0 then (true, false)
  else
    match env e with
    | EventStatus.untriggered => (false, false)
    | EventStatus.triggered p => (true, p)

/- ------------------------------------------------------------------ -/
/- EventMerger (event_impl.cc lines 411-493).                         -/
/- ------------------------------------------------------------------ -/

/-- State of an EventMerger: the finish event id, the ignore_faults flag,
    and the two counters. -/
structure EventMerger where
  finish_event : Nat
  ignore_faults : Bool
  count_needed : Int
  faults_observed : Int
deriving DecidableEq

/-- EventMerger constructor (event_impl.cc lines 413-419): count_needed
    starts at 1 (the phantom pending for arm) and faults_observed at 0. -/
def EventMerger.create (fe : Nat) (ig : Bool) : EventMerger :=
  { finish_event := fe, ignore_faults := ig, count_needed := 1, faults_observed := 0 }

/-- EventMerger::add_event (event_impl.cc lines 425-443).  Returns the new
    merger state, whether the merger registered itself as a waiter on
    wait_for, and whether finish_event was eagerly triggered with poison.
    Note that the code enters the fault-counting branch whenever wait_for
    has already triggered, without consulting the poison bit it read. -/
def EventMerger.add_event (m : EventMerger) (env : Nat → EventStatus)
    (wait_for : Nat) : EventMerger × Bool × Bool :=
  if (has_triggered_faultaware env wait_for).1 then
    let first_fault : Bool := m.faults_observed = 0
    ({ m with faults_observed := m.faults_observed + 1 },
     false,
     first_fault && !m.ignore_faults)
  else
    ({ m with count_needed := m.count_needed + 1 }, true, false)

/- ------------------------------------------------------------------ -/
/- GenEventImpl::merge_events (event_impl.cc lines 496-561).          -/
/- ------------------------------------------------------------------ -/

/-- Result of merge_events: either an existing input event returned
    unmodified, Event::NO_EVENT, or a freshly created finish event driven
    by a newly allocated EventMerger. -/
inductive MergeResult : Type
  | returned : Nat → MergeResult
  | noEvent : MergeResult
  | merged : MergeResult
deriving DecidableEq

/-- Outcome of the scanning loop in merge_events: either an early return of
    an input event, or the final wait_count together with first_wait.
    first_wait is default-initialized (modelled as 0); it is only consulted
    when wait_count is exactly 1, in which case it has been assigned. -/
inductive ScanOutcome : Type
  | earlyReturn : Nat → ScanOutcome
  | counted : Nat → Nat → ScanOutcome
deriving DecidableEq

/-- The scanning loop of merge_events (event_impl.cc lines 504-521): walk
    the input set (a std::set, iterated in ascending order, modelled as the
    list order) while wait_count < 2.  A triggered input causes an early
    return of that input when ignore_faults is false -- the code does not
    consult the poison bit here. -/
def merge_scan (env : Nat → EventStatus) (ig : Bool) :
    List Nat → Nat → Nat → ScanOutcome
  | [], wc, fw => ScanOutcome.counted wc fw
  | e :: rest, wc, fw =>
    if 2 ≤ wc then ScanOutcome.counted wc fw
    else
      if (has_triggered_faultaware env e).1 then
        if !ig then ScanOutcome.earlyReturn e
        else merge_scan env ig rest wc fw
      else
        merge_scan env ig rest (wc + 1) (if wc = 0 then e else fw)

/-- GenEventImpl::merge_events for a set of input events (event_impl.cc
    lines 496-561): empty set returns NO_EVENT; then the scan may return an
    input early; wait_count 0 returns NO_EVENT; wait_count 1 without
    ignore_faults returns first_wait; otherwise a fresh event and merger
    are allocated. -/
def merge_events (env : Nat → EventStatus) (wait_for : List Nat)
    (ig : Bool) : MergeResult :=
  if wait_for = [] then MergeResult.noEvent
  else
    match merge_scan env ig wait_for 0 0 with
    | ScanOutcome.earlyReturn e => MergeResult.returned e
    | ScanOutcome.counted wc fw =>
      if wc = 0 then MergeResult.noEvent
      else if wc = 1 && !ig then MergeResult.returned fw
      else MergeResult.merged

/- ------------------------------------------------------------------ -/
/- Claims C1 - C3.                                                    -/
/- ------------------------------------------------------------------ -/

/-- C1 (code bug, evaluation at the failing input): add_event on a fresh
    merger (ignore_faults = false) with an input that has already triggered
    WITHOUT poison nevertheless increments faults_observed from 0 to 1,
    does not register the merger as a waiter (and leaves count_needed at 1),
    and eagerly triggers finish_event with poison.  The claim says
    faults_observed is incremented only for a poisoned input and that a
    cleanly triggered input leads to count_needed++ plus registration. -/
theorem C1_add_event_counts_clean_input_as_fault :
    EventMerger.add_event (EventMerger.create 42 false)
        (fun _ => EventStatus.triggered false) 7 =
      ({ finish_event := 42, ignore_faults := false,
         count_needed := 1, faults_observed := 1 }, false, true) := by
  rfl

/-- C2 (code bug, evaluation at the failing input): merge_events with
    ignore_faults = false over inputs {1, 2}, where event 1 has triggered
    with poison bit FALSE and event 2 is untriggered, returns input event 1
    unmodified -- the early return fires for any triggered input, not only
    a poisoned one, silently dropping the dependence on event 2. -/
theorem C2_merge_events_early_returns_clean_input :
    merge_events
        (fun e => if e = 1 then EventStatus.triggered false
                  else EventStatus.untriggered)
        [1, 2] false = MergeResult.returned 1 := by
  rfl

/-- C3 (confirmed): merge_events on the empty set returns NO_EVENT, and
    merge_events on a singleton {e} with ignore_faults = false returns e
    itself, for every event e and every environment. -/
theorem C3_merge_events_empty_and_singleton (env : Nat → EventStatus) (e : Nat) :
    merge_events env [] false = MergeResult.noEvent ∧
    merge_events env [e] false = MergeResult.returned e := by
  constructor
  · rfl
  · by_cases h0 : e = 0
    · subst h0
      rfl
    · unfold merge_events
      rw [if_neg (by simp)]
      unfold merge_scan
      rw [if_neg (by omega)]
      unfold has_triggered_faultaware
      rw [if_neg h0]
      cases henv : env e with
      | untriggered => simp [merge_scan]
      | triggered p => simp

/- ------------------------------------------------------------------ -/
/- GenEventImpl state (event_impl.cc lines 386-407 and event fields). -/
/- ------------------------------------------------------------------ -/

/-- State of one GenEventImpl.  poisoned_generations models the C array
    together with num_poisoned_generations (its length); the waiter vectors
    hold abstract waiter ids; the maps are association lists in ascending
    key order. -/
structure GenEventImpl where
  owner : Nat
  generation : Nat
  gen_subscribed : Nat
  poisoned_generations : List Nat
  has_local_triggers : Bool
  local_triggers : List (Nat × Bool)
  current_local_waiters : List Nat
  future_local_waiters : List (Nat × List Nat)
  remote_waiters : List Nat
deriving DecidableEq

/-- GenEventImpl::is_generation_poisoned (event_impl.cc lines 773-783):
    fast path when the poisoned list is empty, otherwise a linear scan. -/
def GenEventImpl.is_generation_poisoned (impl : GenEventImpl) (gen : Nat) : Bool :=
  if impl.poisoned_generations.length = 0 then false
  else impl.poisoned_generations.contains gen

/-- GenEventImpl::has_triggered (event_impl.cc lines 1080-1120): the
    lock-free generation check, then the has_local_triggers early out, then
    the locked local_triggers lookup. -/
def GenEventImpl.has_triggered (impl : GenEventImpl) (needed_gen : Nat) :
    Bool × Bool :=
  if needed_gen ≤ impl.generation then
    (true, impl.is_generation_poisoned needed_gen)
  else if !impl.has_local_triggers then (false, false)
  else
    match lookupKey impl.local_triggers needed_gen with
    | some p => (true, p)
    | none => (false, false)

/-- Phrasing of claim C4 taken from the specification's own wording
    (spec.md section 4.2), to be compared against GenEventImpl.has_triggered:
    gen_needed at or below generation answers (true, is_poisoned); a node
    with no recorded local triggers answers (false, false); otherwise the
    local_triggers entry decides, absent meaning (false, false). -/
def has_triggered_spec (impl : GenEventImpl) (gen_needed : Nat) : Bool × Bool :=
  if gen_needed ≤ impl.generation then
    (true, impl.is_generation_poisoned gen_needed)
  else if impl.has_local_triggers = false then (false, false)
  else
    match lookupKey impl.local_triggers gen_needed with
    | some p => (true, p)
    | none => (false, false)

/-- Result of GenEventImpl::add_waiter: the new state, whether the waiter
    fires immediately and with which poison bit, and the subscription
    message (needed_gen, previous_subscribe_gen) sent to the owner, if
    any. -/
structure AddWaiterResult where
  state : GenEventImpl
  trigger_now : Bool
  trigger_poisoned : Bool
  subscribe_msg : Option (Nat × Nat)
deriving DecidableEq

/-- GenEventImpl::add_waiter (event_impl.cc lines 698-771): classify
    needed_gen under the mutex (already triggered / locally triggered /
    current waiter / future waiter), bump gen_subscribed on a non-owner if
    it is below needed_gen, and report whether to fire the waiter now. -/
def GenEventImpl.add_waiter (impl : GenEventImpl) (my_node : Nat)
    (needed_gen : Nat) (waiter : Nat) : AddWaiterResult :=
  if needed_gen ≤ impl.generation then
    { state := impl, trigger_now := true,
      trigger_poisoned := impl.is_generation_poisoned needed_gen,
      subscribe_msg := none }
  else
    match lookupKey impl.local_triggers needed_gen with
    | some p =>
      { state := impl, trigger_now := true, trigger_poisoned := p,
        subscribe_msg := none }
    | none =>
      let impl1 :=
        if needed_gen = impl.generation + 1 then
          { impl with current_local_waiters :=
              impl.current_local_waiters ++ [waiter] }
        else
          { impl with future_local_waiters :=
              appendAtKey impl.future_local_waiters needed_gen waiter }
      if my_node ≠ impl.owner ∧ impl.gen_subscribed < needed_gen then
        { state := { impl1 with gen_subscribed := needed_gen },
          trigger_now := false, trigger_poisoned := false,
          subscribe_msg := some (needed_gen, impl.gen_subscribed) }
      else
        { state := impl1, trigger_now := false, trigger_poisoned := false,
          subscribe_msg := none }

/-- Result of GenEventImpl::trigger: the new state, the waiters woken (all
    fired with the trigger's poison bit), the EventUpdateMessage broadcast
    targets and whether the object is returned to the free list (owner
    path), whether an EventTriggerMessage was sent to the owner (non-owner
    path), and the subscription message (gen, previous_subscribe_gen)
    issued, if any. -/
structure TriggerResult where
  state : GenEventImpl
  to_wake : List Nat
  wake_poisoned : Bool
  to_update : List Nat
  free_event : Bool
  trigger_msg_to_owner : Bool
  subscribe_msg : Option (Nat × Nat)
deriving DecidableEq

/-- GenEventImpl::trigger (event_impl.cc lines 1172-1313).  limit stands
    for POISONED_GENERATION_LIMIT, whose value lives in the header that is
    not part of this repository snapshot; every property proved below holds
    for an arbitrary limit.  The owner path assumes the asserts hold
    (gen_triggered == generation + 1, empty future waiters, poison budget
    not exceeded); they appear as hypotheses of the theorems. -/
def GenEventImpl.trigger (impl : GenEventImpl) (my_node : Nat)
    (gen_triggered : Nat) (poisoned : Bool) (limit : Nat) : TriggerResult :=
  if my_node = impl.owner then
    let pg :=
      if poisoned then impl.poisoned_generations ++ [gen_triggered]
      else impl.poisoned_generations
    { state := { impl with
        generation := gen_triggered,
        poisoned_generations := pg,
        current_local_waiters := [],
        remote_waiters := [] },
      to_wake := impl.current_local_waiters,
      wake_poisoned := poisoned,
      to_update := impl.remote_waiters,
      free_event := decide (pg.length < limit),
      trigger_msg_to_owner := false,
      subscribe_msg := none }
  else if gen_triggered = impl.generation + 1 then
    let promoted :=
      match impl.future_local_waiters with
      | [] => none
      | (k, ws) :: rest =>
        if k = impl.generation + 1 then some (ws, rest) else none
    { state := { impl with
        generation := gen_triggered,
        current_local_waiters :=
          (match promoted with
           | some (ws, _) => ws
           | none => []),
        future_local_waiters :=
          (match promoted with
           | some (_, rest) => rest
           | none => impl.future_local_waiters),
        local_triggers :=
          (if poisoned then insertKey impl.local_triggers gen_triggered true
           else impl.local_triggers),
        has_local_triggers := impl.has_local_triggers || poisoned },
      to_wake := impl.current_local_waiters,
      wake_poisoned := poisoned,
      to_update := [],
      free_event := false,
      trigger_msg_to_owner := true,
      subscribe_msg := none }
  else
    { state := { impl with
        future_local_waiters := eraseKey impl.future_local_waiters gen_triggered,
        local_triggers := insertKey impl.local_triggers gen_triggered poisoned,
        has_local_triggers := true,
        gen_subscribed := gen_triggered },
      to_wake := (lookupKey impl.future_local_waiters gen_triggered).getD [],
      wake_poisoned := poisoned,
      to_update := [],
      free_event := false,
      trigger_msg_to_owner := true,
      subscribe_msg := some (gen_triggered, impl.gen_subscribed) }

/- ------------------------------------------------------------------ -/
/- Claims C4 - C6 and C9.                                             -/
/- ------------------------------------------------------------------ -/

/-- C4 (confirmed): GenEventImpl::has_triggered agrees with the case split
    stated by the spec for every state and every requested generation. -/
theorem C4_has_triggered_matches_spec (impl : GenEventImpl) (g : Nat) :
    impl.has_triggered g = has_triggered_spec impl g := by
  unfold GenEventImpl.has_triggered has_triggered_spec
  by_cases h1 : g ≤ impl.generation
  · simp [h1]
  · cases h2 : impl.has_local_triggers <;> simp [h1, h2]

/-- C5 (confirmed): trigger on the owning node, under the owner-path
    precondition gen_triggered = generation + 1, sets generation to
    gen_triggered, appends gen_triggered to poisoned_generations exactly
    when poisoned, wakes exactly the waiters in current_local_waiters
    (emptying that list), and returns the object to the free list iff the
    poisoned-generation count stays below the limit after the trigger. -/
theorem C5_trigger_owner (impl : GenEventImpl) (g : Nat) (p : Bool) (limit : Nat)
    (hgen : g = impl.generation + 1) :
    (impl.trigger impl.owner g p limit).state.generation = g ∧
    (impl.trigger impl.owner g p limit).state.poisoned_generations =
      (if p then impl.poisoned_generations ++ [g]
       else impl.poisoned_generations) ∧
    (impl.trigger impl.owner g p limit).to_wake = impl.current_local_waiters ∧
    (impl.trigger impl.owner g p limit).state.current_local_waiters = [] ∧
    ((impl.trigger impl.owner g p limit).free_event = true ↔
      (impl.trigger impl.owner g p limit).state.poisoned_generations.length
        < limit) := by
  unfold GenEventImpl.trigger
  cases p <;> simp

/-- Closed witness for C5 at a concrete owner-side state. -/
theorem C5_trigger_owner_witness :
    (1 = GenEventImpl.generation
            { owner := 0, generation := 0, gen_subscribed := 0,
              poisoned_generations := [], has_local_triggers := false,
              local_triggers := [], current_local_waiters := [5, 6],
              future_local_waiters := [], remote_waiters := [2] } + 1) ∧
    ((GenEventImpl.trigger
        { owner := 0, generation := 0, gen_subscribed := 0,
          poisoned_generations := [], has_local_triggers := false,
          local_triggers := [], current_local_waiters := [5, 6],
          future_local_waiters := [], remote_waiters := [2] } 0 1 true 16).state.generation = 1 ∧
      (GenEventImpl.trigger
        { owner := 0, generation := 0, gen_subscribed := 0,
          poisoned_generations := [], has_local_triggers := false,
          local_triggers := [], current_local_waiters := [5, 6],
          future_local_waiters := [], remote_waiters := [2] } 0 1 true 16).state.poisoned_generations =
        (if true then ([] : List Nat) ++ [1] else []) ∧
      (GenEventImpl.trigger
        { owner := 0, generation := 0, gen_subscribed := 0,
          poisoned_generations := [], has_local_triggers := false,
          local_triggers := [], current_local_waiters := [5, 6],
          future_local_waiters := [], remote_waiters := [2] } 0 1 true 16).to_wake = [5, 6] ∧
      (GenEventImpl.trigger
        { owner := 0, generation := 0, gen_subscribed := 0,
          poisoned_generations := [], has_local_triggers := false,
          local_triggers := [], current_local_waiters := [5, 6],
          future_local_waiters := [], remote_waiters := [2] } 0 1 true 16).state.current_local_waiters = [] ∧
      ((GenEventImpl.trigger
        { owner := 0, generation := 0, gen_subscribed := 0,
          poisoned_generations := [], has_local_triggers := false,
          local_triggers := [], current_local_waiters := [5, 6],
          future_local_waiters := [], remote_waiters := [2] } 0 1 true 16).free_event = true ↔
        (GenEventImpl.trigger
        { owner := 0, generation := 0, gen_subscribed := 0,
          poisoned_generations := [], has_local_triggers := false,
          local_triggers := [], current_local_waiters := [5, 6],
          future_local_waiters := [], remote_waiters := [2] } 0 1 true 16).state.poisoned_generations.length < 16)) :=
  ⟨by decide,
   C5_trigger_owner
     { owner := 0, generation := 0, gen_subscribed := 0,
       poisoned_generations := [], has_local_triggers := false,
       local_triggers := [], current_local_waiters := [5, 6],
       future_local_waiters := [], remote_waiters := [2] } 1 true 16 (by decide)⟩

/-- C6 (confirmed): trigger on a non-owning node for a generation strictly
    beyond generation + 1 leaves generation unchanged, wakes exactly the
    waiters stored in future_local_waiters at gen_triggered (none when the
    key is absent), records local_triggers[gen_triggered] = poisoned, and
    leaves current_local_waiters and every other future_local_waiters entry
    unchanged. -/
theorem C6_trigger_nonowner_future (impl : GenEventImpl) (my_node g : Nat)
    (p : Bool) (limit : Nat)
    (hnotown : my_node ≠ impl.owner)
    (hfuture : impl.generation + 1 < g) :
    (impl.trigger my_node g p limit).state.generation = impl.generation ∧
    (impl.trigger my_node g p limit).to_wake =
      (lookupKey impl.future_local_waiters g).getD [] ∧
    lookupKey (impl.trigger my_node g p limit).state.local_triggers g = some p ∧
    (impl.trigger my_node g p limit).state.current_local_waiters =
      impl.current_local_waiters ∧
    (∀ g2, g2 ≠ g →
      lookupKey (impl.trigger my_node g p limit).state.future_local_waiters g2 =
        lookupKey impl.future_local_waiters g2) := by
  have hne : ¬ g = impl.generation + 1 := by omega
  unfold GenEventImpl.trigger
  rw [if_neg hnotown, if_neg hne]
  refine ⟨rfl, rfl, ?_, rfl, ?_⟩
  · exact lookupKey_insertKey_self impl.local_triggers g p
  · intro g2 hg2
    exact lookupKey_eraseKey_ne impl.future_local_waiters g g2 hg2

/-- Closed witness for C6 at a concrete non-owner state. -/
theorem C6_trigger_nonowner_future_witness :
    (1 ≠ GenEventImpl.owner
           { owner := 0, generation := 1, gen_subscribed := 4,
             poisoned_generations := [], has_local_triggers := false,
             local_triggers := [], current_local_waiters := [7],
             future_local_waiters := [(3, [8]), (4, [9])],
             remote_waiters := [] } ∧
      GenEventImpl.generation
           { owner := 0, generation := 1, gen_subscribed := 4,
             poisoned_generations := [], has_local_triggers := false,
             local_triggers := [], current_local_waiters := [7],
             future_local_waiters := [(3, [8]), (4, [9])],
             remote_waiters := [] } + 1 < 3) ∧
    ((GenEventImpl.trigger
        { owner := 0, generation := 1, gen_subscribed := 4,
          poisoned_generations := [], has_local_triggers := false,
          local_triggers := [], current_local_waiters := [7],
          future_local_waiters := [(3, [8]), (4, [9])],
          remote_waiters := [] } 1 3 true 16).state.generation = 1 ∧
     (GenEventImpl.trigger
        { owner := 0, generation := 1, gen_subscribed := 4,
          poisoned_generations := [], has_local_triggers := false,
          local_triggers := [], current_local_waiters := [7],
          future_local_waiters := [(3, [8]), (4, [9])],
          remote_waiters := [] } 1 3 true 16).to_wake = [8] ∧
     lookupKey (GenEventImpl.trigger
        { owner := 0, generation := 1, gen_subscribed := 4,
          poisoned_generations := [], has_local_triggers := false,
          local_triggers := [], current_local_waiters := [7],
          future_local_waiters := [(3, [8]), (4, [9])],
          remote_waiters := [] } 1 3 true 16).state.local_triggers 3 = some true ∧
     (GenEventImpl.trigger
        { owner := 0, generation := 1, gen_subscribed := 4,
          poisoned_generations := [], has_local_triggers := false,
          local_triggers := [], current_local_waiters := [7],
          future_local_waiters := [(3, [8]), (4, [9])],
          remote_waiters := [] } 1 3 true 16).state.current_local_waiters = [7] ∧
     lookupKey (GenEventImpl.trigger
        { owner := 0, generation := 1, gen_subscribed := 4,
          poisoned_generations := [], has_local_triggers := false,
          local_triggers := [], current_local_waiters := [7],
          future_local_waiters := [(3, [8]), (4, [9])],
          remote_waiters := [] } 1 3 true 16).state.future_local_waiters 4 =
       lookupKey [(3, [8]), (4, [9])] 4) := by
  have h := C6_trigger_nonowner_future
    { owner := 0, generation := 1, gen_subscribed := 4,
      poisoned_generations := [], has_local_triggers := false,
      local_triggers := [], current_local_waiters := [7],
      future_local_waiters := [(3, [8]), (4, [9])],
      remote_waiters := [] } 1 3 true 16 (by decide) (by decide)
  exact ⟨⟨by decide, by decide⟩,
    h.1, h.2.1, h.2.2.1, h.2.2.2.1, h.2.2.2.2 4 (by decide)⟩

/-- C9 counterexample: the invariant gen_subscribed at or above generation
    does not hold after every operation.  A fresh owner-side event (both
    fields 0) triggered once on the owner ends with generation = 1 while
    gen_subscribed stays 0. -/
theorem C9_counterexample :
    ¬ ((GenEventImpl.trigger
          { owner := 0, generation := 0, gen_subscribed := 0,
            poisoned_generations := [], has_local_triggers := false,
            local_triggers := [], current_local_waiters := [],
            future_local_waiters := [], remote_waiters := [] }
          0 1 false 16).state.generation ≤
        (GenEventImpl.trigger
          { owner := 0, generation := 0, gen_subscribed := 0,
            poisoned_generations := [], has_local_triggers := false,
            local_triggers := [], current_local_waiters := [],
            future_local_waiters := [], remote_waiters := [] }
          0 1 false 16).state.gen_subscribed) := by
  decide

/-- C9 (corrected): what does hold is that add_waiter preserves the
    relation gen_subscribed at or above generation whenever it held before
    the call (add_waiter never changes generation and never lowers
    gen_subscribed); trigger does not preserve it, as the counterexample
    shows. -/
theorem C9_add_waiter_preserves (impl : GenEventImpl) (my_node g w : Nat)
    (h : impl.generation ≤ impl.gen_subscribed) :
    (impl.add_waiter my_node g w).state.generation ≤
      (impl.add_waiter my_node g w).state.gen_subscribed := by
  unfold GenEventImpl.add_waiter
  by_cases h1 : g ≤ impl.generation
  · simp [h1]
    exact h
  · rw [if_neg h1]
    cases hlt : lookupKey impl.local_triggers g with
    | some p => exact h
    | none =>
      by_cases h2 : my_node ≠ impl.owner ∧ impl.gen_subscribed < g
      · rw [if_pos h2]
        by_cases h3 : g = impl.generation + 1 <;> simp [h3] <;> omega
      · rw [if_neg h2]
        by_cases h3 : g = impl.generation + 1 <;> simp [h3] <;> exact h

/-- Closed witness for the corrected C9 statement. -/
theorem C9_add_waiter_preserves_witness :
    (GenEventImpl.generation
        { owner := 0, generation := 2, gen_subscribed := 2,
          poisoned_generations := [], has_local_triggers := false,
          local_triggers := [], current_local_waiters := [],
          future_local_waiters := [], remote_waiters := [] } ≤
      GenEventImpl.gen_subscribed
        { owner := 0, generation := 2, gen_subscribed := 2,
          poisoned_generations := [], has_local_triggers := false,
          local_triggers := [], current_local_waiters := [],
          future_local_waiters := [], remote_waiters := [] }) ∧
    (GenEventImpl.add_waiter
        { owner := 0, generation := 2, gen_subscribed := 2,
          poisoned_generations := [], has_local_triggers := false,
          local_triggers := [], current_local_waiters := [],
          future_local_waiters := [], remote_waiters := [] }
        1 5 9).state.generation ≤
      (GenEventImpl.add_waiter
        { owner := 0, generation := 2, gen_subscribed := 2,
          poisoned_generations := [], has_local_triggers := false,
          local_triggers := [], current_local_waiters := [],
          future_local_waiters := [], remote_waiters := [] }
        1 5 9).state.gen_subscribed :=
  ⟨by decide,
   C9_add_waiter_preserves
     { owner := 0, generation := 2, gen_subscribed := 2,
       poisoned_generations := [], has_local_triggers := false,
       local_triggers := [], current_local_waiters := [],
       future_local_waiters := [], remote_waiters := [] }
     1 5 9 (by decide)⟩

/- ------------------------------------------------------------------ -/
/- Barrier state (event_impl.cc lines 1364-1395 and barrier fields).  -/
/- ------------------------------------------------------------------ -/

/-- Per-origin-node timestamp bookkeeping of a barrier generation tracker.
    The struct itself is declared in the header (not part of this snapshot)
    and is reconstructed from its uses in event_impl.cc: the last timestamp
    seen from the node and the pending (deferred) negative adjustments
    keyed by timestamp, in ascending order. -/
structure PerNodeUpdates where
  last_ts : Nat
  pending : List (Nat × Int)
deriving DecidableEq

/-- BarrierImpl::Generation (event_impl.cc lines 1492-1541): the cumulative
    unguarded adjustment, the per-origin-node timestamp bookkeeping, and
    the local waiters blocked on this generation. -/
structure BarrierImpl.Generation where
  unguarded_delta : Int
  pernode : List (Nat × PerNodeUpdates)
  local_waiters : List Nat
deriving DecidableEq

/-- The pending-drain loop of handle_adjustment (event_impl.cc lines
    1522-1528): repeatedly take the least pending timestamp while it is at
    or below the given bound, summing the drained deltas. -/
def drainPending : List (Nat × Int) → Nat → Int × List (Nat × Int)
  | [], _ => (0, [])
  | (t, d) :: rest, ts =>
    if t ≤ ts then
      let r := drainPending rest ts
      (d + r.1, r.2)
    else (0, (t, d) :: rest)

/-- On a pending map in ascending key order, the drain loop applies exactly
    the entries with timestamp at or below the bound and keeps the rest. -/
theorem drainPending_eq_filter (ts : Nat) :
    ∀ (l : List (Nat × Int)),
      l.Pairwise (fun a b => a.1 < b.1) →
      drainPending l ts =
        (((l.filter (fun e => decide (e.1 ≤ ts))).map Prod.snd).sum,
         l.filter (fun e => decide (ts < e.1))) := by
  intro l
  induction l with
  | nil => intro _; simp [drainPending]
  | cons hd tl ih =>
    intro hpw
    obtain ⟨t, d⟩ := hd
    rw [List.pairwise_cons] at hpw
    by_cases h1 : t ≤ ts
    · have h2 : ¬ ts < t := by omega
      simp only [drainPending, if_pos h1]
      rw [ih hpw.2]
      simp [List.filter_cons, h1, h2]
    · have h2 : ts < t := by omega
      have hall1 : tl.filter (fun e => decide (e.1 ≤ ts)) = [] := by
        rw [List.filter_eq_nil_iff]
        intro a ha
        have := hpw.1 a ha
        simp only [decide_eq_true_eq]
        omega
      have hall2 : tl.filter (fun e => decide (ts < e.1)) = tl := by
        rw [List.filter_eq_self]
        intro a ha
        have := hpw.1 a ha
        simp only [decide_eq_true_eq]
        omega
      simp only [drainPending, if_neg h1, List.filter_cons]
      simp [h1, h2, hall1, hall2]

/-- BarrierImpl::Generation::handle_adjustment (event_impl.cc lines
    1501-1541).  shift stands for BARRIER_TIMESTAMP_NODEID_SHIFT (declared
    in the header, not part of this snapshot); the origin node is the
    timestamp shifted right by it.  A zero timestamp applies the delta
    directly; a positive delta applies immediately, sets the node's
    last_ts, and drains pending entries at or below it; a non-positive
    delta applies immediately only when the timestamp is at or below the
    node's last_ts and otherwise accumulates into pending. -/
def BarrierImpl.Generation.handle_adjustment (g : BarrierImpl.Generation)
    (ts : Nat) (delta : Int) (shift : Nat) : BarrierImpl.Generation :=
  if ts = 0 then { g with unguarded_delta := g.unguarded_delta + delta }
  else
    let node := ts >>> shift
    let pn := (lookupKey g.pernode node).getD { last_ts := 0, pending := [] }
    if 0 < delta then
      let dp := drainPending pn.pending ts
      { g with
        unguarded_delta := g.unguarded_delta + delta + dp.1,
        pernode := insertKey g.pernode node { last_ts := ts, pending := dp.2 } }
    else if ts ≤ pn.last_ts then
      { g with
        unguarded_delta := g.unguarded_delta + delta,
        pernode := insertKey g.pernode node pn }
    else
      { g with
        pernode := insertKey g.pernode node
          { pn with pending := addAtKey pn.pending ts delta } }

/-- State of one BarrierImpl restricted to the fields the verified paths
    touch; the reduction-value machinery (redop, final_values,
    value_capacity) is outside the claims below and is omitted.  The maps
    are association lists in ascending key order. -/
structure BarrierImpl where
  owner : Nat
  generation : Nat
  gen_subscribed : Nat
  first_generation : Nat
  base_arrival_count : Nat
  generations : List (Nat × BarrierImpl.Generation)
  held_triggers : List (Nat × Nat)
deriving DecidableEq

/-- Result of BarrierImpl::has_triggered: the boolean answer, the poisoned
    out-parameter, the possibly updated state, and the generation of the
    BarrierSubscribeMessage sent to the owner, if any. -/
structure BarrierHasTriggeredResult where
  result : Bool
  poisoned : Bool
  state : BarrierImpl
  subscribe_msg : Option Nat
deriving DecidableEq

/-- BarrierImpl::has_triggered (event_impl.cc lines 1749-1775): poisoned is
    pinned to POISON_FIXME before anything else; a generation at or below
    the current one answers yes; otherwise a non-owner that has not yet
    subscribed through needed_gen raises gen_subscribed and subscribes, and
    the answer is no. -/
def BarrierImpl.has_triggered (impl : BarrierImpl) (my_node needed_gen : Nat) :
    BarrierHasTriggeredResult :=
  if needed_gen ≤ impl.generation then
    { result := true, poisoned := POISON_FIXME, state := impl,
      subscribe_msg := none }
  else if impl.owner ≠ my_node then
    if impl.gen_subscribed < needed_gen then
      { result := false, poisoned := POISON_FIXME,
        state := { impl with gen_subscribed := needed_gen },
        subscribe_msg := some needed_gen }
    else
      { result := false, poisoned := POISON_FIXME, state := impl,
        subscribe_msg := none }
  else
    { result := false, poisoned := POISON_FIXME, state := impl,
      subscribe_msg := none }

/-- The held-trigger absorption loop of BarrierTriggerMessage reception
    (event_impl.cc lines 1916-1925): while the least held previous_gen
    equals the running trigger_gen, extend trigger_gen to the held range's
    end and drop the entry. -/
def absorbHeld : Nat → List (Nat × Nat) → Nat × List (Nat × Nat)
  | tg, [] => (tg, [])
  | tg, (p, t) :: rest =>
    if p = tg then absorbHeld t rest else (tg, (p, t) :: rest)

/-- The waiter-collection loop of BarrierTriggerMessage reception
    (event_impl.cc lines 1931-1940): drain the generation trackers in
    ascending order while their generation is at or below trigger_gen,
    concatenating their local waiters. -/
def drainGenerations : Nat → List (Nat × BarrierImpl.Generation) →
    List Nat × List (Nat × BarrierImpl.Generation)
  | _, [] => ([], [])
  | tg, (g, gen) :: rest =>
    if g ≤ tg then
      let r := drainGenerations tg rest
      (gen.local_waiters ++ r.1, r.2)
    else ([], (g, gen) :: rest)

/-- On a generation map in ascending key order, the drain loop collects
    exactly the waiters of the generations at or below trigger_gen, in
    generation order, and keeps the trackers above it. -/
theorem drainGenerations_eq_filter (tg : Nat) :
    ∀ (l : List (Nat × BarrierImpl.Generation)),
      l.Pairwise (fun a b => a.1 < b.1) →
      drainGenerations tg l =
        ((l.filter (fun e => decide (e.1 ≤ tg))).flatMap
           (fun e => e.2.local_waiters),
         l.filter (fun e => decide (tg < e.1))) := by
  intro l
  induction l with
  | nil => intro _; simp [drainGenerations]
  | cons hd tl ih =>
    intro hpw
    obtain ⟨g, gen⟩ := hd
    rw [List.pairwise_cons] at hpw
    by_cases h1 : g ≤ tg
    · have h2 : ¬ tg < g := by omega
      simp only [drainGenerations, if_pos h1, List.filter_cons]
      rw [ih hpw.2]
      simp [h1, h2]
    · have h2 : tg < g := by omega
      have hall1 : tl.filter (fun e => decide (e.1 ≤ tg)) = [] := by
        rw [List.filter_eq_nil_iff]
        intro a ha
        have := hpw.1 a ha
        simp only [decide_eq_true_eq]
        omega
      have hall2 : tl.filter (fun e => decide (tg < e.1)) = tl := by
        rw [List.filter_eq_self]
        intro a ha
        have := hpw.1 a ha
        simp only [decide_eq_true_eq]
        omega
      simp only [drainGenerations, if_neg h1, List.filter_cons]
      simp [h1, h2, hall1, hall2]

/-- Result of receiving a BarrierTriggerMessage: the new state, the local
    waiters notified, and the poison bit every one of them receives. -/
structure BarrierTriggerResult where
  state : BarrierImpl
  local_notifications : List Nat
  notification_poison : Bool
deriving DecidableEq

/-- BarrierTriggerMessage::handle_request (event_impl.cc lines 1896-1979),
    for a message without reduction payload (datalen = 0; the payload path
    only touches the reduction-value fields, which no claim below
    concerns).  A contiguous message (previous_gen equal to the local
    generation) absorbs chained held triggers, publishes the final
    generation and drains the trackers it covers; any other message is
    stored in held_triggers and notifies nobody.  Every notification
    carries POISON_FIXME. -/
def BarrierTriggerMessage.handle_request (impl : BarrierImpl)
    (trigger_gen previous_gen : Nat) : BarrierTriggerResult :=
  if previous_gen = impl.generation then
    let a := absorbHeld trigger_gen impl.held_triggers
    let d := drainGenerations a.1 impl.generations
    { state := { impl with
        generation := a.1, held_triggers := a.2, generations := d.2 },
      local_notifications := d.1,
      notification_poison := POISON_FIXME }
  else
    { state := { impl with
        held_triggers := insertKey impl.held_triggers previous_gen trigger_gen },
      local_notifications := [],
      notification_poison := POISON_FIXME }

/- ------------------------------------------------------------------ -/
/- Claims C7, C8 and C10.                                             -/
/- ------------------------------------------------------------------ -/

/-- C7 (confirmed): for an adjustment with nonzero timestamp on a tracked
    origin node whose pending map is in ascending key order: a positive
    delta is added to unguarded_delta immediately, the node's last_ts
    becomes ts, and exactly the pending entries with timestamp at or below
    ts are applied and removed; a negative delta is applied immediately
    when ts is at or below last_ts, and otherwise leaves unguarded_delta
    untouched and accumulates into pending[ts] -- so a decrement never
    takes effect before its matching increment from the same origin. -/
theorem C7_handle_adjustment (g : BarrierImpl.Generation) (ts : Nat)
    (delta : Int) (shift : Nat) (pn : PerNodeUpdates)
    (hts : ts ≠ 0)
    (hpn : lookupKey g.pernode (ts >>> shift) = some pn)
    (hsorted : pn.pending.Pairwise (fun a b => a.1 < b.1)) :
    (0 < delta →
      (g.handle_adjustment ts delta shift).unguarded_delta =
        g.unguarded_delta + delta +
          ((pn.pending.filter (fun e => decide (e.1 ≤ ts))).map Prod.snd).sum ∧
      lookupKey (g.handle_adjustment ts delta shift).pernode (ts >>> shift) =
        some { last_ts := ts,
               pending := pn.pending.filter (fun e => decide (ts < e.1)) }) ∧
    (delta < 0 → ts ≤ pn.last_ts →
      (g.handle_adjustment ts delta shift).unguarded_delta =
        g.unguarded_delta + delta ∧
      lookupKey (g.handle_adjustment ts delta shift).pernode (ts >>> shift) =
        some pn) ∧
    (delta < 0 → pn.last_ts < ts →
      (g.handle_adjustment ts delta shift).unguarded_delta =
        g.unguarded_delta ∧
      lookupKey (g.handle_adjustment ts delta shift).pernode (ts >>> shift) =
        some { last_ts := pn.last_ts,
               pending := addAtKey pn.pending ts delta }) := by
  unfold BarrierImpl.Generation.handle_adjustment
  rw [if_neg hts]
  simp only [hpn, Option.getD_some]
  have hdrain := drainPending_eq_filter ts pn.pending hsorted
  refine ⟨?_, ?_, ?_⟩
  · intro hpos
    rw [if_pos hpos]
    constructor
    · simp [hdrain]
    · simp only
      rw [lookupKey_insertKey_self]
      rw [hdrain]
  · intro hneg hle
    rw [if_neg (by omega), if_pos hle]
    exact ⟨rfl, lookupKey_insertKey_self g.pernode (ts >>> shift) pn⟩
  · intro hneg hgt
    rw [if_neg (by omega), if_neg (by omega)]
    exact ⟨rfl, lookupKey_insertKey_self g.pernode (ts >>> shift) _⟩

/-- Closed witness for C7 at a concrete tracker state (shift 3, timestamp 9
    from node 1, negative delta deferred past last_ts 5). -/
theorem C7_handle_adjustment_witness :
    ((9 : Nat) ≠ 0 ∧
     lookupKey
       (BarrierImpl.Generation.pernode
         { unguarded_delta := 100,
           pernode := [(1, { last_ts := 5, pending := [(7, -3)] })],
           local_waiters := [] }) (9 >>> 3) =
       some { last_ts := 5, pending := [(7, -3)] }) ∧
    ((-2 : Int) < 0 → PerNodeUpdates.last_ts { last_ts := 5, pending := [(7, -3)] } < 9 →
      (BarrierImpl.Generation.handle_adjustment
        { unguarded_delta := 100,
          pernode := [(1, { last_ts := 5, pending := [(7, -3)] })],
          local_waiters := [] } 9 (-2) 3).unguarded_delta =
        BarrierImpl.Generation.unguarded_delta
          { unguarded_delta := 100,
            pernode := [(1, { last_ts := 5, pending := [(7, -3)] })],
            local_waiters := [] } ∧
      lookupKey (BarrierImpl.Generation.handle_adjustment
        { unguarded_delta := 100,
          pernode := [(1, { last_ts := 5, pending := [(7, -3)] })],
          local_waiters := [] } 9 (-2) 3).pernode (9 >>> 3) =
        some { last_ts := 5, pending := addAtKey [(7, -3)] 9 (-2) }) :=
  ⟨⟨by decide, by decide⟩,
   (C7_handle_adjustment
     { unguarded_delta := 100,
       pernode := [(1, { last_ts := 5, pending := [(7, -3)] })],
       local_waiters := [] } 9 (-2) 3 { last_ts := 5, pending := [(7, -3)] }
     (by decide) (by decide) (by simp)).2.2⟩

/-- C8 (confirmed): a non-owner receiving a BarrierTrigger message for a
    later range first (previous_gen different from the local generation,
    starting with no held triggers) fires no local waiter and leaves the
    generation field unchanged, storing held_triggers[previous_gen] =
    trigger_gen; when the message closing the gap then arrives (previous
    equal to the local generation, trigger equal to the held range's
    start), the held range is absorbed, the generation advances to the held
    range's end, and exactly the waiters of all covered generations fire in
    generation order, skipping none. -/
theorem C8_out_of_order_triggers (impl : BarrierImpl) (t1 p1 : Nat)
    (hheld : impl.held_triggers = [])
    (hne : p1 ≠ impl.generation)
    (hsorted : impl.generations.Pairwise (fun a b => a.1 < b.1)) :
    (BarrierTriggerMessage.handle_request impl t1 p1).local_notifications = [] ∧
    (BarrierTriggerMessage.handle_request impl t1 p1).state.generation =
      impl.generation ∧
    (BarrierTriggerMessage.handle_request impl t1 p1).state.held_triggers =
      [(p1, t1)] ∧
    (BarrierTriggerMessage.handle_request
       (BarrierTriggerMessage.handle_request impl t1 p1).state
       p1 impl.generation).state.generation = t1 ∧
    (BarrierTriggerMessage.handle_request
       (BarrierTriggerMessage.handle_request impl t1 p1).state
       p1 impl.generation).state.held_triggers = [] ∧
    (BarrierTriggerMessage.handle_request
       (BarrierTriggerMessage.handle_request impl t1 p1).state
       p1 impl.generation).local_notifications =
      (impl.generations.filter (fun e => decide (e.1 ≤ t1))).flatMap
        (fun e => e.2.local_waiters) := by
  have hstep1 : BarrierTriggerMessage.handle_request impl t1 p1 =
      { state := { impl with held_triggers := [(p1, t1)] },
        local_notifications := [],
        notification_poison := POISON_FIXME } := by
    unfold BarrierTriggerMessage.handle_request
    rw [if_neg hne, hheld]
    rfl
  rw [hstep1]
  refine ⟨rfl, rfl, rfl, ?_⟩
  have hstep2 : BarrierTriggerMessage.handle_request
      { impl with held_triggers := [(p1, t1)] } p1 impl.generation =
      { state := { impl with
          generation := t1, held_triggers := [],
          generations :=
            impl.generations.filter (fun e => decide (t1 < e.1)) },
        local_notifications :=
          (impl.generations.filter (fun e => decide (e.1 ≤ t1))).flatMap
            (fun e => e.2.local_waiters),
        notification_poison := POISON_FIXME } := by
    unfold BarrierTriggerMessage.handle_request
    rw [if_pos rfl]
    simp [absorbHeld, drainGenerations_eq_filter t1 impl.generations hsorted]
  rw [hstep2]
  exact ⟨rfl, rfl, rfl⟩

/-- Closed witness for C8: the spec's scenario S7.  generation 1, waiters
    10 on generation 2 and 11 on generation 3; the message (previous 2,
    trigger 3) arrives first, then (previous 1, trigger 2). -/
theorem C8_out_of_order_triggers_witness :
    (BarrierTriggerMessage.handle_request
       { owner := 0, generation := 1, gen_subscribed := 3,
         first_generation := 0, base_arrival_count := 3,
         generations :=
           [(2, { unguarded_delta := 0, pernode := [], local_waiters := [10] }),
            (3, { unguarded_delta := 0, pernode := [], local_waiters := [11] })],
         held_triggers := [] } 3 2).local_notifications = [] ∧
    (BarrierTriggerMessage.handle_request
       { owner := 0, generation := 1, gen_subscribed := 3,
         first_generation := 0, base_arrival_count := 3,
         generations :=
           [(2, { unguarded_delta := 0, pernode := [], local_waiters := [10] }),
            (3, { unguarded_delta := 0, pernode := [], local_waiters := [11] })],
         held_triggers := [] } 3 2).state.generation = 1 ∧
    (BarrierTriggerMessage.handle_request
       { owner := 0, generation := 1, gen_subscribed := 3,
         first_generation := 0, base_arrival_count := 3,
         generations :=
           [(2, { unguarded_delta := 0, pernode := [], local_waiters := [10] }),
            (3, { unguarded_delta := 0, pernode := [], local_waiters := [11] })],
         held_triggers := [] } 3 2).state.held_triggers = [(2, 3)] ∧
    (BarrierTriggerMessage.handle_request
       (BarrierTriggerMessage.handle_request
         { owner := 0, generation := 1, gen_subscribed := 3,
           first_generation := 0, base_arrival_count := 3,
           generations :=
             [(2, { unguarded_delta := 0, pernode := [], local_waiters := [10] }),
              (3, { unguarded_delta := 0, pernode := [], local_waiters := [11] })],
           held_triggers := [] } 3 2).state 2 1).state.generation = 3 ∧
    (BarrierTriggerMessage.handle_request
       (BarrierTriggerMessage.handle_request
         { owner := 0, generation := 1, gen_subscribed := 3,
           first_generation := 0, base_arrival_count := 3,
           generations :=
             [(2, { unguarded_delta := 0, pernode := [], local_waiters := [10] }),
              (3, { unguarded_delta := 0, pernode := [], local_waiters := [11] })],
           held_triggers := [] } 3 2).state 2 1).state.held_triggers = [] ∧
    (BarrierTriggerMessage.handle_request
       (BarrierTriggerMessage.handle_request
         { owner := 0, generation := 1, gen_subscribed := 3,
           first_generation := 0, base_arrival_count := 3,
           generations :=
             [(2, { unguarded_delta := 0, pernode := [], local_waiters := [10] }),
              (3, { unguarded_delta := 0, pernode := [], local_waiters := [11] })],
           held_triggers := [] } 3 2).state 2 1).local_notifications =
      ([(2, ({ unguarded_delta := 0, pernode := [], local_waiters := [10] } :
               BarrierImpl.Generation)),
        (3, { unguarded_delta := 0, pernode := [], local_waiters := [11] })].filter
          (fun e => decide (e.1 ≤ 3))).flatMap (fun e => e.2.local_waiters) :=
  C8_out_of_order_triggers
    { owner := 0, generation := 1, gen_subscribed := 3,
      first_generation := 0, base_arrival_count := 3,
      generations :=
        [(2, { unguarded_delta := 0, pernode := [], local_waiters := [10] }),
         (3, { unguarded_delta := 0, pernode := [], local_waiters := [11] })],
      held_triggers := [] } 3 2 rfl (by decide) (by simp)

/-- The map operation of BarrierImpl::add_waiter (event_impl.cc lines
    1790-1800): find or create the generation tracker (Generation's
    constructor zero-initializes unguarded_delta, line 1492) and append the
    waiter to its local_waiters, keeping ascending key order. -/
def appendWaiterAtKey : List (Nat × BarrierImpl.Generation) → Nat → Nat →
    List (Nat × BarrierImpl.Generation)
  | [], key, w =>
    [(key, { unguarded_delta := 0, pernode := [], local_waiters := [w] })]
  | (k, g) :: rest, key, w =>
    if key < k then
      (key, { unguarded_delta := 0, pernode := [], local_waiters := [w] }) ::
        (k, g) :: rest
    else if key = k then
      (k, { g with local_waiters := g.local_waiters ++ [w] }) :: rest
    else (k, g) :: appendWaiterAtKey rest key w

/-- Result of BarrierImpl::add_waiter: the new state, whether the waiter
    fires immediately, and the poison bit it is fired with when it does. -/
structure BarrierAddWaiterResult where
  state : BarrierImpl
  trigger_now : Bool
  trigger_poisoned : Bool
deriving DecidableEq

/-- BarrierImpl::add_waiter (event_impl.cc lines 1783-1818): a waiter on a
    generation beyond the current one is appended to that generation's
    tracker (created on demand); otherwise the generation has already
    occurred and the waiter fires immediately, with POISON_FIXME as its
    poison bit (line 1812). -/
def BarrierImpl.add_waiter (impl : BarrierImpl) (needed_gen waiter : Nat) :
    BarrierAddWaiterResult :=
  if impl.generation < needed_gen then
    { state :=
        { impl with generations :=
            appendWaiterAtKey impl.generations needed_gen waiter },
      trigger_now := false, trigger_poisoned := POISON_FIXME }
  else
    { state := impl, trigger_now := true, trigger_poisoned := POISON_FIXME }

/-- The trigger-drain loop of the owner path of adjust_arrival
    (event_impl.cc lines 1630-1642): while the least tracked generation is
    the next one and its arrival count is satisfied, advance the
    generation, harvest its local waiters in order, and drop the
    tracker. -/
def drainTriggered (base : Nat) : Nat → List (Nat × BarrierImpl.Generation) →
    Nat × List Nat × List (Nat × BarrierImpl.Generation)
  | gen, [] => (gen, [], [])
  | gen, (k, g) :: rest =>
    if k = gen + 1 ∧ (base : Int) + g.unguarded_delta = 0 then
      let r := drainTriggered base k rest
      (r.1, g.local_waiters ++ r.2.1, r.2.2)
    else (gen, [], (k, g) :: rest)

/-- Result of the owner path of BarrierImpl::adjust_arrival restricted to
    the local side: the new state, the local waiters notified, the poison
    bit every one of them receives, and the triggered generation (0 when
    nothing triggered). -/
structure BarrierAdjustResult where
  state : BarrierImpl
  local_notifications : List Nat
  notification_poison : Bool
  trigger_gen : Nat
deriving DecidableEq

/-- Owner path of BarrierImpl::adjust_arrival (event_impl.cc lines
    1596-1746) for an arrival whose wait_on has already triggered and which
    carries no reduction value: find or create the tracker for barrier_gen
    and apply handle_adjustment; when the adjustment is to the next
    generation, drain the contiguous satisfied generations, collecting
    their local waiters.  Those waiters are all fired with POISON_FIXME
    (line 1722).  The remote-notification bookkeeping (remote_subscribe_gens
    and remote_trigger_gens, lines 1644-1676) only builds BarrierTrigger
    messages to other nodes and touches neither the local notifications nor
    any field modelled here, so it is omitted. -/
def BarrierImpl.adjust_arrival (impl : BarrierImpl) (barrier_gen : Nat)
    (delta : Int) (timestamp : Nat) (shift : Nat) : BarrierAdjustResult :=
  let g0 := (lookupKey impl.generations barrier_gen).getD
      { unguarded_delta := 0, pernode := [], local_waiters := [] }
  let g1 := g0.handle_adjustment timestamp delta shift
  let gens1 := insertKey impl.generations barrier_gen g1
  if barrier_gen = impl.generation + 1 then
    let d := drainTriggered impl.base_arrival_count impl.generation gens1
    { state := { impl with generation := d.1, generations := d.2.2 },
      local_notifications := d.2.1,
      notification_poison := POISON_FIXME,
      trigger_gen := if impl.generation < d.1 then d.1 else 0 }
  else
    { state := { impl with generations := gens1 },
      local_notifications := [],
      notification_poison := POISON_FIXME,
      trigger_gen := 0 }

/-- C10 (confirmed): every barrier-side poison report is pinned to false:
    BarrierImpl::has_triggered always sets the poisoned out-parameter to
    POISON_FIXME = false regardless of the barrier's state, and every
    waiter notified by a barrier trigger receives poisoned = false on each
    notification channel -- BarrierTrigger reception, the local
    notifications of the owner path of adjust_arrival, and the immediate
    fire of BarrierImpl::add_waiter. -/
theorem C10_barrier_poison_pinned (impl : BarrierImpl) (n g t p bg w ts sh : Nat)
    (delta : Int) :
    POISON_FIXME = false ∧
    (impl.has_triggered n g).poisoned = false ∧
    (BarrierTriggerMessage.handle_request impl t p).notification_poison = false ∧
    (impl.adjust_arrival bg delta ts sh).notification_poison = false ∧
    (impl.add_waiter g w).trigger_poisoned = false := by
  refine ⟨rfl, ?_, ?_, ?_, ?_⟩
  · unfold BarrierImpl.has_triggered
    split_ifs <;> rfl
  · unfold BarrierTriggerMessage.handle_request
    split_ifs <;> rfl
  · unfold BarrierImpl.adjust_arrival
    split_ifs <;> rfl
  · unfold BarrierImpl.add_waiter
    split_ifs <;> rfl

end Realm
